import Mathlib

/-!
Shallow embedding of the credential vault, async completion poller,
carousel creative builders and provisioning pipeline of the
social-media uploader service, with theorems about the behaviour its
specification describes.

Sources embedded (paths relative to the repository root):
* `app/routers/meta_db_writer.py` (`MetaTokenDbWriter.store_token`)
* `app/routers/meta_token_db_reader.py` (`MetaTokenDbReader.get_active_token`)
* `app/console/meta_analytics.py` (`_load_page_or_user_token`)
* `app/routers/organic_poster.py` (`_wait_until_media_finished`,
  `upload_carousel_instagram` retry loops)
* `app/models/ads_stairway.py` (`_normalize_carousel_attachments`,
  `create_campaign_by_index`)
* `app/models/fb_ads_stairway.py` (`create_paid_fb_homogeneous_carousel_ad`,
  `create_paid_fb_mixed_carousel_ad`, `create_adset`, `_MutableAdSet`,
  `create_campaign_by_index`, `get_ad_accounts`)

Encryption is delegated by the source to the external `cryptography.fernet`
library; the embedding is parameterised over the encrypt/decrypt pair and
theorems that need the library's round-trip contract take it as a hypothesis.
-/

/-- One row of the `meta_token` table, restricted to the columns that the
token-rotation writer and the active-token reader touch.  `created_at` is a
logical timestamp (the SQL `now()`). -/
structure TokenRow where
  client_id : String
  owner_type : String
  owner_id : String
  access_token_ciphertext : String
  token_fingerprint : String
  status : String
  created_at : Nat
deriving DecidableEq, Repr

/-- The SQL predicate `client_id=%s AND owner_type=%s AND owner_id=%s AND
status='active'` shared by the writer's UPDATE and the reader's SELECT. -/
def matchesActive (c t o : String) (r : TokenRow) : Bool :=
  r.client_id == c && r.owner_type == t && r.owner_id == o && r.status == "active"

/-- Effect of the writer's UPDATE on one row: a row matching the key with
status `active` is flipped to `revoked`, any other row is untouched. -/
def revokeActive (c t o : String) (r : TokenRow) : TokenRow :=
  if matchesActive c t o r then { r with status := "revoked" } else r

/-- The row INSERTed by `MetaTokenDbWriter.store_token`: ciphertext and
fingerprint of the plaintext token, status `'active'`. -/
def mkTokenRow (enc fp : String → String) (c t o s : String) (now : Nat) : TokenRow :=
  { client_id := c, owner_type := t, owner_id := o,
    access_token_ciphertext := enc s, token_fingerprint := fp s,
    status := "active", created_at := now }

/-- Embedding of `MetaTokenDbWriter.store_token`: within one transaction, revoke any
currently active token for the (client, owner_type, owner_id) key, then
insert the new encrypted row with status `'active'`.  The whole function is
one state transition, mirroring the single COMMIT in the source. -/
def store_token (enc fp : String → String) (db : List TokenRow)
    (c t o s : String) (now : Nat) : List TokenRow :=
  db.map (revokeActive c t o) ++ [mkTokenRow enc fp c t o s now]

/-- The decrypted token returned by `MetaTokenDbReader.get_active_token`
(scopes / expiry metadata omitted: no claim touches them). -/
structure ActiveToken where
  owner_type : String
  owner_id : String
  access_token : String
deriving DecidableEq, Repr

/-- The SQL `ORDER BY created_at DESC LIMIT 1` over the rows selected by
`matchesActive`: the latest matching row, if any. -/
def selectActiveRow (db : List TokenRow) (c t o : String) : Option TokenRow :=
  (db.filter (matchesActive c t o)).foldl
    (fun acc r =>
      match acc with
      | none => some r
      | some b => if b.created_at < r.created_at then some r else some b)
    none

/-- Error message raised by `MetaTokenDbReader.get_active_token` when the
SELECT returns no row (`DbReadError`). -/
def noActiveTokenMsg : String := "No active token found"

/-- Embedding of `MetaTokenDbReader.get_active_token`: select the latest active row for
the exact (client, owner_type, owner_id) key, decrypt its ciphertext; raise
`DbReadError` when no such row exists.  There is no fallback to any other
owner inside this function. -/
def get_active_token (dec : String → String) (db : List TokenRow)
    (c t o : String) : Except String ActiveToken :=
  match selectActiveRow db c t o with
  | none => .error noActiveTokenMsg
  | some r =>
      .ok { owner_type := r.owner_type, owner_id := r.owner_id,
            access_token := dec r.access_token_ciphertext }

/-- Embedding of `MetaTokenDbReader.get_active_user_token`. -/
def get_active_user_token (dec : String → String) (db : List TokenRow)
    (c uid : String) : Except String ActiveToken :=
  get_active_token dec db c "user" uid

/-- Embedding of `MetaTokenDbReader.get_active_page_token`. -/
def get_active_page_token (dec : String → String) (db : List TokenRow)
    (c pid : String) : Except String ActiveToken :=
  get_active_token dec db c "page" pid

/-- Error message of `TokenLoadError` in
`MetaAnalyticsConsole._load_page_or_user_token`. -/
def noTokenAvailableMsg : String := "No page token or user token available."

/-- Embedding of `MetaAnalyticsConsole._load_page_or_user_token`: the resource-scoped
loader.  The page id and meta user id arguments stand for the context that
`_load_context_from_db` resolved (each `none` when the corresponding table
has no row for the client).  Page token is tried first; a `DbReadError`
there is swallowed and the user token is tried; a `DbReadError` from the
user lookup propagates; `TokenLoadError` is raised when no id is available
to try. -/
def load_page_or_user_token (dec : String → String) (db : List TokenRow)
    (c : String) (pageId? userId? : Option String) : Except String String :=
  let tryUser : Except String String :=
    match userId? with
    | some uid =>
        match get_active_user_token dec db c uid with
        | .ok t => .ok t.access_token
        | .error e => .error e
    | none => .error noTokenAvailableMsg
  match pageId? with
  | some pid =>
      match get_active_page_token dec db c pid with
      | .ok t => .ok t.access_token
      | .error _ => tryUser
  | none => tryUser

/-! ## Async completion poller (`organic_poster._wait_until_media_finished`) -/

/-- One polled response of the status endpoint: either a Graph error
envelope, or a (possibly absent) `status_code` field. -/
inductive PollResp where
  | envError (detail : String)
  | statusCode (s : Option String)
deriving DecidableEq, Repr

/-- Result of the completion poller, together with how many status polls it
performed.  `apiError` is the HTTP 400 raised on an error envelope,
`processingFailed` the "Media failed to process" failure, `timeout` the
"Media not ready after multiple attempts" failure. -/
inductive WaitResult where
  | success
  | apiError (detail : String)
  | processingFailed
  | timeout
deriving DecidableEq, Repr

/-- Constant `MAX_RETRIES` in `app/routers/organic_poster.py`. -/
def MAX_RETRIES : Nat := 20

/-- Constant `RETRY_DELAY` (seconds slept between status polls). -/
def RETRY_DELAY : Nat := 5

/-- The poll loop of `_wait_until_media_finished`: `fuel` attempts remain,
`k` polls were already made; `resps k` is the k-th polled response.
Returns the outcome and the total number of polls performed. -/
def waitFrom (resps : Nat → PollResp) : Nat → Nat → WaitResult × Nat
  | 0, k => (.timeout, k)
  | fuel + 1, k =>
      match resps k with
      | .envError d => (.apiError d, k + 1)
      | .statusCode s =>
          if s = some "FINISHED" then (.success, k + 1)
          else if s = some "ERROR" then (.processingFailed, k + 1)
          else waitFrom resps fuel (k + 1)

/-- Embedding of `_wait_until_media_finished`, as a function of the response sequence. -/
def wait_until_media_finished (resps : Nat → PollResp) : WaitResult × Nat :=
  waitFrom resps MAX_RETRIES 0

/-- A response the poller keeps waiting on: a status that is neither
`FINISHED` nor `ERROR` (and not an error envelope). -/
def isPendingResp : PollResp → Prop
  | .envError _ => False
  | .statusCode s => s ≠ some "FINISHED" ∧ s ≠ some "ERROR"

/-! ## Submission retry loops (`organic_poster.upload_carousel_instagram`) -/

/-- Response of one submission attempt: success with the created container
id, or a Graph error envelope whose `is_transient` flag is recorded. -/
inductive SubmitResp where
  | ok (id : String)
  | err (is_transient : Bool) (detail : String)
deriving DecidableEq, Repr

/-- Outcome of a submission retry loop: success, a hard (non-transient)
error raised immediately (HTTP 400), or the HTTP 500 raised by the loop's
`else` clause when all attempts were consumed. -/
inductive SubmitResult where
  | success (id : String)
  | hardError (detail : String)
  | exhausted
deriving DecidableEq, Repr

/-- The `for attempt in range(1, 6)` retry loop: `resps a` is the remote
response to the call made on attempt `a` (1-based); a transient error sleeps
`a * delayUnit` seconds and retries.  Returns the outcome, the number of
network calls made, and the chronological list of sleeps performed. -/
def retryFrom (delayUnit : Nat) (resps : Nat → SubmitResp) :
    Nat → Nat → Nat → List Nat → SubmitResult × Nat × List Nat
  | 0, _, calls, sleeps => (.exhausted, calls, sleeps)
  | fuel + 1, a, calls, sleeps =>
      match resps a with
      | .ok id => (.success id, calls + 1, sleeps)
      | .err true _ => retryFrom delayUnit resps fuel (a + 1) (calls + 1) (sleeps ++ [a * delayUnit])
      | .err false d => (.hardError d, calls + 1, sleeps)

/-- Generic submission-with-retry entry point: 5 attempts starting at
attempt 1 with linear backoff `attempt * delayUnit`. -/
def submitWithRetry (delayUnit : Nat) (resps : Nat → SubmitResp) :
    SubmitResult × Nat × List Nat :=
  retryFrom delayUnit resps 5 1 0 []

/-- The child-container creation loop of `upload_carousel_instagram`
(`wait = attempt * 4`). -/
def carousel_child_submit (resps : Nat → SubmitResp) : SubmitResult × Nat × List Nat :=
  submitWithRetry 4 resps

/-- The parent-container creation loop of `upload_carousel_instagram`
(`wait = attempt * 5`). -/
def carousel_parent_submit (resps : Nat → SubmitResp) : SubmitResult × Nat × List Nat :=
  submitWithRetry 5 resps

/-! ## Carousel cards and validation -/

/-- A raw carousel child attachment as passed to the builders: a Python
dict whose relevant optional entries are `name`, `link`, `image_hash`,
`video_id`.  `none` models an absent key. -/
structure RawCard where
  name : Option String := none
  link : Option String := none
  image_hash : Option String := none
  video_id : Option String := none
deriving DecidableEq, Repr

/-- Python `str.strip()`: drop leading and trailing whitespace.  Written
over the character list so that closed instances evaluate inside the
kernel. -/
def pyStrip (s : String) : String :=
  String.mk (((s.data.dropWhile Char.isWhitespace).reverse.dropWhile
    Char.isWhitespace).reverse)

/-- Value of `(att.get(key) or "").strip()` for an optional string entry. -/
def getStr (o : Option String) : String := pyStrip (o.getD "")

/-- A normalized carousel card (output of validation). -/
structure NCard where
  name : String
  link : String
  image_hash : String
  video_id : Option String := none
deriving DecidableEq, Repr

/-- Validation failures of the carousel builders.  `tooFewCards` /
`tooManyCards` are the 2..10 cardinality errors; `missingImageHash i` is
the per-card image-hash error of the homogeneous paths; `missingThumbnail i`
is the video-card-without-thumbnail error; `missingBoth i` the
"missing both image_hash and video_id" error; `noCover` the final
"could not determine cover" check.  Card indices are 1-based as in the
source's messages. -/
inductive CarErr where
  | tooFewCards
  | tooManyCards
  | missingImageHash (i : Nat)
  | missingThumbnail (i : Nat)
  | missingBoth (i : Nat)
  | noCover
deriving DecidableEq, Repr

/-- Per-card loop of `AdsStairway._normalize_carousel_attachments`:
`i` is the 1-based index of the first card of the remaining list.  Each
card must carry a non-empty (stripped) `image_hash`; `video_id` is
optional; the card link defaults to `link_url`. -/
def normalizeCards (link_url : String) : Nat → List RawCard → Except CarErr (List NCard)
  | _, [] => .ok []
  | i, att :: rest =>
      let img := getStr att.image_hash
      let vid := getStr att.video_id
      if img = "" then .error (.missingImageHash i)
      else
        match normalizeCards link_url (i + 1) rest with
        | .error e => .error e
        | .ok tail =>
            .ok ({ name := (att.name.getD ("Card " ++ toString i)),
                   link := if getStr att.link = "" then link_url else getStr att.link,
                   image_hash := img,
                   video_id := if vid = "" then none else some vid } :: tail)

/-- Embedding of `AdsStairway._normalize_carousel_attachments`: 2..10 cards, every card
with an image hash; returns the cover hash (the first card's image hash,
set when `cover_hash` is still `None` on the first iteration) and the
normalized cards. -/
def normalize_carousel_attachments (cards : List RawCard) (link_url : String) :
    Except CarErr (String × List NCard) :=
  if cards.length < 2 then .error .tooFewCards
  else if cards.length > 10 then .error .tooManyCards
  else
    match normalizeCards link_url 1 cards with
    | .error e => .error e
    | .ok [] => .error .noCover
    | .ok (c :: tl) => .ok (c.image_hash, c :: tl)

/-! ## FB creative builders (`fb_ads_stairway.py`) with their network traces -/

/-- The `object_story_spec` built by the FB carousel creative paths. -/
structure ObjStorySpec where
  page_id : String
  message : String
  link : String
  child_attachments : List NCard
  multi_share_optimized : Bool
deriving DecidableEq, Repr

/-- A network submission performed by the FB builder stages. -/
inductive FbReq where
  | createCreative (name : String) (spec : ObjStorySpec)
  | createAd (name adset_id creative_id status : String)
deriving DecidableEq, Repr

/-- Response of the transport (`FbAdsStairway._req`): parsed id on success,
or a failure (error envelope / missing id), which the source raises. -/
inductive NetResp where
  | ok (id : String)
  | fail (detail : String)
deriving DecidableEq, Repr

/-- Errors surfaced by the FB builder paths: a validation `ValueError`
raised before any network call, or a remote failure raised by `_req` /
the missing-id checks. -/
inductive FbErr where
  | validation (e : CarErr)
  | remote (detail : String)
deriving DecidableEq, Repr

/-- Per-card cleaning loop of
`FbAdsStairway.create_paid_fb_homogeneous_carousel_ad`: default `name` and
`link`, and require a truthy `image_hash` on every card (no cardinality
check exists in this function). -/
def fbCleanHomogeneous (link_url : String) : Nat → List RawCard → Except CarErr (List NCard)
  | _, [] => .ok []
  | i, c :: rest =>
      if c.image_hash.getD "" = "" then .error (.missingImageHash i)
      else
        match fbCleanHomogeneous link_url (i + 1) rest with
        | .error e => .error e
        | .ok tail =>
            .ok ({ name := c.name.getD ("Card " ++ toString i),
                   link := c.link.getD link_url,
                   image_hash := c.image_hash.getD "",
                   video_id := c.video_id } :: tail)

/-- Per-card cleaning loop of `FbAdsStairway.create_paid_fb_mixed_carousel_ad`:
a card with a truthy `video_id` and no truthy `image_hash` raises the
missing-thumbnail `ValueError`; a card with neither raises the
missing-both `ValueError`.  No cardinality check exists here either. -/
def fbCleanMixed (link_url : String) : Nat → List RawCard → Except CarErr (List NCard)
  | _, [] => .ok []
  | i, c :: rest =>
      if c.video_id.getD "" ≠ "" ∧ c.image_hash.getD "" = "" then
        .error (.missingThumbnail i)
      else if c.image_hash.getD "" = "" ∧ c.video_id.getD "" = "" then
        .error (.missingBoth i)
      else
        match fbCleanMixed link_url (i + 1) rest with
        | .error e => .error e
        | .ok tail =>
            .ok ({ name := c.name.getD ("Card " ++ toString i),
                   link := c.link.getD link_url,
                   image_hash := c.image_hash.getD "",
                   video_id := c.video_id } :: tail)

/-- Shared tail of the FB carousel builders: submit the creative to
`/act/adcreatives` via `_req` (which raises on failure), then submit the ad
to `/act/ads`.  Returns the chronological list of network submissions
together with the outcome. -/
def fbSubmitCreativeAndAd (net : FbReq → NetResp) (page_id ad_name primary_text link_url : String)
    (cleaned : List NCard) (adset_id status : String) : List FbReq × Except FbErr String :=
  let spec : ObjStorySpec :=
    { page_id := page_id, message := primary_text, link := link_url,
      child_attachments := cleaned, multi_share_optimized := true }
  let creativeReq := FbReq.createCreative ad_name spec
  match net creativeReq with
  | .fail d => ([creativeReq], .error (.remote d))
  | .ok creative_id =>
      let adReq := FbReq.createAd ad_name adset_id creative_id status
      match net adReq with
      | .fail d => ([creativeReq, adReq], .error (.remote d))
      | .ok ad_id => ([creativeReq, adReq], .ok ad_id)

/-- Embedding of `FbAdsStairway.create_paid_fb_homogeneous_carousel_ad`: clean the cards
(per-card image-hash requirement only), then create creative and ad.  A
validation failure happens before any network call, hence with an empty
request trace. -/
def create_paid_fb_homogeneous_carousel_ad (net : FbReq → NetResp)
    (page_id ad_name primary_text link_url : String) (cards : List RawCard)
    (adset_id status : String) : List FbReq × Except FbErr String :=
  match fbCleanHomogeneous link_url 1 cards with
  | .error e => ([], .error (.validation e))
  | .ok cleaned => fbSubmitCreativeAndAd net page_id ad_name primary_text link_url cleaned adset_id status

/-- Embedding of `FbAdsStairway.create_paid_fb_mixed_carousel_ad`: clean the cards
(thumbnail rule for video cards), then create creative and ad. -/
def create_paid_fb_mixed_carousel_ad (net : FbReq → NetResp)
    (page_id ad_name primary_text link_url : String) (cards : List RawCard)
    (adset_id status : String) : List FbReq × Except FbErr String :=
  match fbCleanMixed link_url 1 cards with
  | .error e => ([], .error (.validation e))
  | .ok cleaned => fbSubmitCreativeAndAd net page_id ad_name primary_text link_url cleaned adset_id status

/-! ## Pipeline state, mutable ad-set fields, ordinal addressing -/

/-- Embedding of `FbAdsStairway._MutableAdSet`: the locally mutable ad-set fields the
pipeline edits after ad-set creation. -/
structure MutableAdSet where
  daily_budget : Nat
  title : String
  link : String
deriving DecidableEq, Repr

/-- The `FbAdsStairway` fields that feed account discovery and campaign
creation. -/
structure FbState where
  campaign_name : String
  objective : String
deriving DecidableEq, Repr

/-- The pipeline run of `main_fb_ad_pipeline.py`: the stairway state plus
the `_MutableAdSet` object returned by `create_adset`. -/
structure RunState where
  stairway : FbState
  adset : MutableAdSet
deriving DecidableEq, Repr

/-- The `adset.daily_budget = ...; adset.title = ...; adset.link = ...`
writes performed by the pipeline between ad-set creation and the creative
stage.  They touch only the local `_MutableAdSet` object and issue no
network request (second component: the requests emitted). -/
def mutate_adset (s : RunState) (budget : Nat) (title link : String) :
    RunState × List FbReq :=
  ({ s with adset := { daily_budget := budget, title := title, link := link } }, [])

/-- The request body of `FbAdsStairway.get_ad_accounts` (account
discovery): a GET on `/me/adaccounts` whose only parameter besides the
token is the `fields` projection. -/
def discovery_request_fields (_s : RunState) : String :=
  "id,name,account_status,currency"

/-- The form body of `FbAdsStairway.create_campaign_by_index`, keyed field
list as in the source. -/
def campaign_request_body (s : RunState) (status : String) : List (String × String) :=
  [("name", if s.stairway.campaign_name = "" then "Automated FB Campaign" else s.stairway.campaign_name),
   ("objective", if s.stairway.objective = "" then "OUTCOME_AWARENESS" else s.stairway.objective),
   ("status", status),
   ("special_ad_categories", "[\x22NONE\x22]"),
   ("is_adset_budget_sharing_enabled", "false")]

/-- The `object_story_spec` of `FbAdsStairway.create_paid_fb_image_ad`, as
built in a later stage of the same run from the mutated ad-set fields the
pipeline passes (`title` as ad name, `link` as link_url). -/
def image_creative_link_data (s : RunState) (page_id primary_text image_hash : String) :
    List (String × String) :=
  [("page_id", page_id),
   ("message", primary_text),
   ("link", s.adset.link),
   ("image_hash", image_hash),
   ("name", s.adset.title)]

/-- A pending campaign recorded by `AdsStairway.get_ad_accounts` (one per
discovered ad account). -/
structure Campaign where
  ad_account_id : String
  name : String
  objective : String
deriving DecidableEq, Repr

/-- A campaign created by `AdsStairway.create_campaign_by_index`. -/
structure CreatedCampaign where
  campaign_id : String
  ad_account_id : String
  name : String
  objective : String
deriving DecidableEq, Repr

/-- Python list subscript semantics for `self.campaigns[index]`: a
non-negative index reads from the front, a negative index of magnitude at
most the length reads from the back, anything else raises `IndexError`. -/
def pyListGet (l : List α) (i : Int) : Option α :=
  if 0 ≤ i then l.get? i.toNat
  else if (-i).toNat ≤ l.length then l.get? (l.length - (-i).toNat)
  else none

/-- Errors of the ordinal-addressed stage operations: the explicit
"Invalid campaign index" / "No campaign stored for this index" guard, the
unguarded Python `IndexError`, or a remote failure. -/
inductive StageErr where
  | invalidIndex
  | indexError
  | remote (detail : String)
deriving DecidableEq, Repr

/-- The campaign-creation submission of `AdsStairway.create_campaign_by_index`. -/
structure IgCampaignReq where
  ad_account_id : String
  name : String
  objective : String
  status : String
deriving DecidableEq, Repr

/-- Embedding of `AdsStairway.create_campaign_by_index`: the guard `index >=
len(self.campaigns)` raises before any network call, but a negative index
passes the guard and `self.campaigns[index]` then reads from the back of
the list; when it resolves, the stage submits the campaign creation.
Returns the chronological request trace and the outcome. -/
def ads_create_campaign_by_index (campaigns : List Campaign) (index : Int)
    (status : String) (net : IgCampaignReq → NetResp) :
    List IgCampaignReq × Except StageErr CreatedCampaign :=
  if (campaigns.length : Int) ≤ index then ([], .error .invalidIndex)
  else
    match pyListGet campaigns index with
    | none => ([], .error .indexError)
    | some campaign =>
        let req : IgCampaignReq :=
          { ad_account_id := campaign.ad_account_id, name := campaign.name,
            objective := campaign.objective, status := status }
        match net req with
        | .fail d => ([req], .error (.remote d))
        | .ok id =>
            ([req], .ok { campaign_id := id, ad_account_id := campaign.ad_account_id,
                          name := campaign.name, objective := campaign.objective })

/-- A campaign reference recorded by `FbAdsStairway.create_campaign_by_index`
in `_campaign_by_index`. -/
structure CampaignRef where
  ad_account_id : String
  campaign_id : String
deriving DecidableEq, Repr

/-- Lookup `self._campaign_by_index.get(int(index))`: dict lookup by exact key. -/
def lookupIdx (m : List (Int × α)) (i : Int) : Option α :=
  (m.find? (fun p => p.1 == i)).map (fun p => p.2)

/-- The ad-set creation submission of `FbAdsStairway.create_adset`. -/
structure FbAdSetReq where
  ad_account_id : String
  campaign_id : String
  status : String
deriving DecidableEq, Repr

/-- Embedding of `FbAdsStairway.create_adset`: resolve the campaign reference recorded
for the ordinal (a Python dict `.get`, so any unrecorded key, negative
included, yields `None` and the "No campaign stored for this index" error
before any network call); when found, submit the ad-set creation. -/
def fb_create_adset (campaignByIndex : List (Int × CampaignRef)) (index : Int)
    (status : String) (net : FbAdSetReq → NetResp) :
    List FbAdSetReq × Except StageErr String :=
  match lookupIdx campaignByIndex index with
  | none => ([], .error .invalidIndex)
  | some ref =>
      let req : FbAdSetReq :=
        { ad_account_id := ref.ad_account_id, campaign_id := ref.campaign_id,
          status := status }
      match net req with
      | .fail d => ([req], .error (.remote d))
      | .ok id => ([req], .ok id)

/-! ## Concrete instances used by the closed theorems -/

/-- A database holding a single active user-owned token, used as concrete
instance in the closed theorems below. -/
def dbUserOnly : List TokenRow :=
  [{ client_id := "cl", owner_type := "user", owner_id := "u1",
     access_token_ciphertext := "ct", token_fingerprint := "fpv",
     status := "active", created_at := 0 }]

/-- Concrete status sequence PENDING, PENDING, FINISHED, ... -/
def respsPPF : Nat → PollResp := fun j =>
  if j < 2 then .statusCode (some "PENDING") else .statusCode (some "FINISHED")

/-- Concrete submission responses: attempt 1 is rate-limited (transient),
attempt 2 succeeds. -/
def respsTransThenOk : Nat → SubmitResp := fun j =>
  if j = 1 then .err true "rate limited" else .ok "cid"

/-- The transport used by the closed FB-builder theorems: every submission
is accepted with id "rid". -/
def netOkFb : FbReq → NetResp := fun _ => .ok "rid"

/-- A 1-card list whose card carries an image hash. -/
def oneGoodCard : List RawCard := [{ image_hash := some "h1" }]

/-- Three image-only cards with hashes h1, h2, h3. -/
def threeGoodCards : List RawCard :=
  [{ image_hash := some "h1" }, { image_hash := some "h2" }, { image_hash := some "h3" }]

/-- A mixed-carousel list whose first card is invalid in a different way
(no image hash and no video id) and whose second card is a video card
without a thumbnail. -/
def mixedBadFirstCards : List RawCard := [{}, { video_id := some "v1" }]

/-- A valid image card followed by a video card without a thumbnail. -/
def vidNoThumbCards : List RawCard :=
  [{ image_hash := some "h1" }, { video_id := some "v1" }]

/-- A state holding one recorded campaign (ordinal 0). -/
def oneCampaign : List Campaign :=
  [{ ad_account_id := "act_1", name := "camp", objective := "OUTCOME_AWARENESS" }]

/-- Accepting transport for the campaign-creation submission. -/
def netOkIg : IgCampaignReq → NetResp := fun _ => .ok "cmp_1"

/-! ## Decidability for closed evaluation -/

deriving instance DecidableEq for Except

/-! ## Vault lemmas -/

theorem matchesActive_revokeActive (c t o : String) (r : TokenRow) :
    matchesActive c t o (revokeActive c t o r) = false := by
  cases hm : matchesActive c t o r with
  | false => simp [revokeActive, hm]
  | true =>
      unfold revokeActive
      rw [if_pos hm]
      simp [matchesActive]

theorem matchesActive_mkTokenRow (enc fp : String → String) (c t o s : String) (now : Nat) :
    matchesActive c t o (mkTokenRow enc fp c t o s now) = true := by
  simp [matchesActive, mkTokenRow]

/-- The rows selected by the reader's WHERE clause after a `store_token`
are exactly the freshly inserted row. -/
theorem filter_store_token (enc fp : String → String) (db : List TokenRow)
    (c t o s : String) (now : Nat) :
    (store_token enc fp db c t o s now).filter (matchesActive c t o)
      = [mkTokenRow enc fp c t o s now] := by
  unfold store_token
  rw [List.filter_append]
  have h1 : (db.map (revokeActive c t o)).filter (matchesActive c t o) = [] := by
    rw [List.filter_eq_nil_iff]
    intro a ha
    rcases List.mem_map.mp ha with ⟨r, _, rfl⟩
    simp [matchesActive_revokeActive]
  rw [h1, List.nil_append]
  simp [matchesActive_mkTokenRow]

/-- C1: after `store_token` commits for a key there is exactly one row with
status `active` for that key; every previously active row for the key is
present with status `revoked`; no row is ever deleted (every old row
survives, possibly with its status flipped, and the table grows by exactly
the inserted row).  The revoke and the insert are one state transition of
the embedding, mirroring the single transaction of the source, so the
post-commit state is the only observable one. -/
theorem store_token_rotation_invariant (enc fp : String → String) (db : List TokenRow)
    (c t o s : String) (now : Nat) :
    ((store_token enc fp db c t o s now).filter (matchesActive c t o)).length = 1 ∧
    (∀ r ∈ db, matchesActive c t o r = true →
        { r with status := "revoked" } ∈ store_token enc fp db c t o s now) ∧
    (∀ r ∈ db, r ∈ store_token enc fp db c t o s now ∨
        { r with status := "revoked" } ∈ store_token enc fp db c t o s now) ∧
    (store_token enc fp db c t o s now).length = db.length + 1 := by
  refine ⟨by rw [filter_store_token]; rfl, ?_, ?_, by simp [store_token]⟩
  · intro r hr hm
    have hmem : revokeActive c t o r ∈ db.map (revokeActive c t o) :=
      List.mem_map_of_mem _ hr
    have heq : revokeActive c t o r = { r with status := "revoked" } := by
      unfold revokeActive; rw [if_pos hm]
    rw [heq] at hmem
    exact List.mem_append_left _ hmem
  · intro r hr
    have hmem : revokeActive c t o r ∈ db.map (revokeActive c t o) :=
      List.mem_map_of_mem _ hr
    cases hm : matchesActive c t o r with
    | false =>
        left
        have heq : revokeActive c t o r = r := by unfold revokeActive; rw [if_neg]; simp [hm]
        rw [heq] at hmem
        exact List.mem_append_left _ hmem
    | true =>
        right
        have heq : revokeActive c t o r = { r with status := "revoked" } := by
          unfold revokeActive; rw [if_pos hm]
        rw [heq] at hmem
        exact List.mem_append_left _ hmem

/-- Witness for C1 at a concrete database: the superseded row survives as
`revoked` and exactly one active row remains. -/
theorem store_token_rotation_witness :
    ({ client_id := "cl", owner_type := "user", owner_id := "u1",
       access_token_ciphertext := "ct", token_fingerprint := "fpv",
       status := "revoked", created_at := 0 } : TokenRow)
      ∈ store_token (fun x => x) (fun x => x) dbUserOnly "cl" "user" "u1" "s2" 1 ∧
    ((store_token (fun x => x) (fun x => x) dbUserOnly "cl" "user" "u1" "s2" 1).filter
        (matchesActive "cl" "user" "u1")).length = 1 := by
  refine ⟨?_, (store_token_rotation_invariant (fun x => x) (fun x => x)
    dbUserOnly "cl" "user" "u1" "s2" 1).1⟩
  exact (store_token_rotation_invariant (fun x => x) (fun x => x)
    dbUserOnly "cl" "user" "u1" "s2" 1).2.1
    { client_id := "cl", owner_type := "user", owner_id := "u1",
      access_token_ciphertext := "ct", token_fingerprint := "fpv",
      status := "active", created_at := 0 }
    (by simp [dbUserOnly]) (by decide)

/-- C6: storing S1 then S2 for the same key and reading back through
`get_active_token` yields S2's plaintext (the read selects the newly
active row, not the revoked S1 row), given the decrypt-of-encrypt
round-trip contract of the external Fernet library. -/
theorem get_active_after_rotation (enc fp dec : String → String) (db : List TokenRow)
    (c t o s1 s2 : String) (n1 n2 : Nat) (hinv : dec (enc s2) = s2) :
    get_active_token dec
        (store_token enc fp (store_token enc fp db c t o s1 n1) c t o s2 n2) c t o
      = .ok { owner_type := t, owner_id := o, access_token := s2 } := by
  unfold get_active_token selectActiveRow
  rw [filter_store_token]
  simp [mkTokenRow, hinv]

/-- Witness for C6: identity encryption, empty initial database, secrets
"s1" then "s2" stored for the same user key; the read returns "s2". -/
theorem get_active_after_rotation_witness :
    get_active_token (fun x => x)
        (store_token (fun x => x) (fun x => x)
          (store_token (fun x => x) (fun x => x) [] "cl" "user" "u1" "s1" 0)
          "cl" "user" "u1" "s2" 1) "cl" "user" "u1"
      = .ok { owner_type := "user", owner_id := "u1", access_token := "s2" } :=
  get_active_after_rotation (fun x => x) (fun x => x) (fun x => x) [] "cl" "user" "u1"
    "s1" "s2" 0 1 rfl

/-- C2, counterexample: `get_active_token` itself performs no
resource-to-user fallback.  With a database holding an active user token
and no page token, the page-scoped read fails with the `DbReadError`
(NotFound) even though the owning user's active secret exists and a
fallback would have succeeded. -/
theorem get_active_token_no_fallback_cex :
    get_active_token (fun x => x) dbUserOnly "cl" "page" "p1" = .error noActiveTokenMsg ∧
    get_active_user_token (fun x => x) dbUserOnly "cl" "u1"
      = .ok { owner_type := "user", owner_id := "u1", access_token := "ct" } := by
  exact ⟨by decide, by decide⟩

/-- C2, amended: the resource-then-user fallback is implemented by the
resource-scoped caller (`_load_page_or_user_token`), not by
`get_active_token`: the loader prefers the page-level active secret,
falls back to the owning user's active secret when the page lookup raised
`DbReadError`, and fails only when neither lookup succeeds. -/
theorem load_page_or_user_token_fallback (dec : String → String) (db : List TokenRow)
    (c pid uid : String) :
    (∀ tk, get_active_page_token dec db c pid = .ok tk →
        load_page_or_user_token dec db c (some pid) (some uid) = .ok tk.access_token) ∧
    (∀ e tu, get_active_page_token dec db c pid = .error e →
        get_active_user_token dec db c uid = .ok tu →
        load_page_or_user_token dec db c (some pid) (some uid) = .ok tu.access_token) ∧
    (∀ e eu, get_active_page_token dec db c pid = .error e →
        get_active_user_token dec db c uid = .error eu →
        load_page_or_user_token dec db c (some pid) (some uid) = .error eu) := by
  refine ⟨fun tk hp => ?_, fun e tu hp hu => ?_, fun e eu hp hu => ?_⟩
  · simp [load_page_or_user_token, hp]
  · simp [load_page_or_user_token, hp, hu]
  · simp [load_page_or_user_token, hp, hu]

/-- Witness for C2 (amended) at the concrete database of the
counterexample: the page lookup fails, and the loader returns the user's
token instead of failing. -/
theorem load_page_or_user_token_fallback_witness :
    load_page_or_user_token (fun x => x) dbUserOnly "cl" (some "p1") (some "u1")
      = .ok "ct" :=
  (load_page_or_user_token_fallback (fun x => x) dbUserOnly "cl" "p1" "u1").2.1
    noActiveTokenMsg
    { owner_type := "user", owner_id := "u1", access_token := "ct" }
    (by decide) (by decide)

/-! ## Poller lemmas and C3 -/

theorem waitFrom_pending_step (resps : Nat → PollResp) (fuel k : Nat)
    (h : isPendingResp (resps k)) :
    waitFrom resps (fuel + 1) k = waitFrom resps fuel (k + 1) := by
  cases hr : resps k with
  | envError d => rw [hr] at h; exact absurd h (by simp [isPendingResp])
  | statusCode s =>
      rw [hr] at h
      obtain ⟨h1, h2⟩ := h
      simp [waitFrom, hr, h1, h2]

theorem waitFrom_skip (resps : Nat → PollResp) :
    ∀ (i n k : Nat), (∀ j, k ≤ j → j < k + i → isPendingResp (resps j)) →
      waitFrom resps (i + n) k = waitFrom resps n (k + i) := by
  intro i
  induction i with
  | zero => intro n k _; simp
  | succ i ih =>
      intro n k h
      have hk : isPendingResp (resps k) := h k le_rfl (by omega)
      have harith : i + 1 + n = i + n + 1 := by omega
      rw [harith, waitFrom_pending_step resps (i + n) k hk,
        ih n (k + 1) (fun j hj1 hj2 => h j (by omega) (by omega))]
      congr 1
      omega

/-- C3: the completion poller returns success after exactly 3 polls on the
status sequence PENDING, PENDING, FINISHED; it fails with the timeout error
after consuming all `MAX_RETRIES` polls when every poll is PENDING; and an
ERROR status at any poll (after only PENDING ones) fails immediately with
the processing-failed error at that poll. -/
theorem wait_until_media_finished_spec (resps : Nat → PollResp) :
    ((resps 0 = .statusCode (some "PENDING") ∧ resps 1 = .statusCode (some "PENDING") ∧
        resps 2 = .statusCode (some "FINISHED")) →
      wait_until_media_finished resps = (.success, 3)) ∧
    ((∀ j, j < MAX_RETRIES → resps j = .statusCode (some "PENDING")) →
      wait_until_media_finished resps = (.timeout, MAX_RETRIES)) ∧
    (∀ k, k < MAX_RETRIES → (∀ j, j < k → resps j = .statusCode (some "PENDING")) →
      resps k = .statusCode (some "ERROR") →
      wait_until_media_finished resps = (.processingFailed, k + 1)) := by
  have hp : ∀ j, resps j = .statusCode (some "PENDING") → isPendingResp (resps j) := by
    intro j hj
    rw [hj]
    exact ⟨by simp, by simp⟩
  refine ⟨fun ⟨h0, h1, h2⟩ => ?_, fun h => ?_, fun k hk hpre herr => ?_⟩
  · unfold wait_until_media_finished
    have h20 : MAX_RETRIES = 2 + 18 := by norm_num [MAX_RETRIES]
    rw [h20, waitFrom_skip resps 2 18 0 (fun j hj1 hj2 => by
      interval_cases j
      · exact hp 0 h0
      · exact hp 1 h1)]
    have h18 : (18 : Nat) = 17 + 1 := by norm_num
    have h02 : 0 + 2 = 2 := by norm_num
    rw [h02, h18]
    simp [waitFrom, h2]
  · have := waitFrom_skip resps MAX_RETRIES 0 0 (fun j _ hj2 => hp j (h j (by omega)))
    simpa [wait_until_media_finished, waitFrom] using this
  · unfold wait_until_media_finished
    have h1 : MAX_RETRIES = k + (MAX_RETRIES - k) := by omega
    rw [h1, waitFrom_skip resps k (MAX_RETRIES - k) 0
      (fun j hj1 hj2 => hp j (hpre j (by omega)))]
    have h2 : MAX_RETRIES - k = (MAX_RETRIES - k - 1) + 1 := by
      have : 0 < MAX_RETRIES - k := by
        have := hk
        unfold MAX_RETRIES at *
        omega
      omega
    have h0k : 0 + k = k := by omega
    rw [h0k, h2]
    simp [waitFrom, herr]

/-- Witness for C3: the concrete PENDING, PENDING, FINISHED sequence
succeeds after exactly 3 polls. -/
theorem wait_until_media_finished_witness :
    wait_until_media_finished respsPPF = (.success, 3) :=
  (wait_until_media_finished_spec respsPPF).1 ⟨by decide, by decide, by decide⟩

/-! ## Submission retry lemmas and C9 -/

theorem retryFrom_transient_skip (δ : Nat) (resps : Nat → SubmitResp) :
    ∀ (i : Nat), ∀ (n a calls : Nat) (sleeps : List Nat),
      (∀ j, a ≤ j → j < a + i → ∃ d, resps j = .err true d) →
      retryFrom δ resps (i + n) a calls sleeps
        = retryFrom δ resps n (a + i) (calls + i)
            (sleeps ++ (List.range i).map (fun t => (a + t) * δ)) := by
  intro i
  induction i with
  | zero => intro n a calls sleeps _; simp
  | succ i ih =>
      intro n a calls sleeps h
      obtain ⟨d, hd⟩ := h a le_rfl (by omega)
      have harith : i + 1 + n = i + n + 1 := by omega
      have hstep : retryFrom δ resps (i + n + 1) a calls sleeps
          = retryFrom δ resps (i + n) (a + 1) (calls + 1) (sleeps ++ [a * δ]) := by
        simp [retryFrom, hd]
      rw [harith, hstep, ih n (a + 1) (calls + 1) (sleeps ++ [a * δ])
        (fun j hj1 hj2 => h j (by omega) (by omega))]
      have hfun : ((fun t => (a + t) * δ) ∘ Nat.succ) = (fun t => (a + 1 + t) * δ) := by
        funext t
        simp only [Function.comp]
        congr 1
        omega
      have ha : a + 1 + i = a + (i + 1) := by omega
      have hc : calls + 1 + i = calls + (i + 1) := by omega
      have hl : sleeps ++ [a * δ] ++ List.map (fun t => (a + 1 + t) * δ) (List.range i)
          = sleeps ++ List.map (fun t => (a + t) * δ) (List.range (i + 1)) := by
        rw [List.append_assoc]
        congr 1
        rw [List.range_succ_eq_map, List.map_cons, List.map_map, hfun]
        simp
      rw [ha, hc, hl]

/-- C9: the submission retry loops of `upload_carousel_instagram` retry a
transient remote error with linear backoff (the sleep before retry
`attempt + 1` is `attempt * delayUnit`), surface the exhausted error only
after all 5 attempts failed transiently, and abort immediately — one call,
no sleep — on a non-transient error; the child loop uses delay unit 4 and
the parent loop delay unit 5. -/
theorem submission_retry_spec (δ : Nat) (resps : Nat → SubmitResp) :
    (∀ d, resps 1 = .err false d →
        submitWithRetry δ resps = (.hardError d, 1, [])) ∧
    (∀ k id, k < 5 →
        (∀ j, 1 ≤ j → j ≤ k → ∃ d, resps j = .err true d) →
        resps (k + 1) = .ok id →
        submitWithRetry δ resps
          = (.success id, k + 1, (List.range k).map (fun t => (1 + t) * δ))) ∧
    ((∀ j, 1 ≤ j → j ≤ 5 → ∃ d, resps j = .err true d) →
        submitWithRetry δ resps
          = (.exhausted, 5, (List.range 5).map (fun t => (1 + t) * δ))) ∧
    carousel_child_submit resps = submitWithRetry 4 resps ∧
    carousel_parent_submit resps = submitWithRetry 5 resps := by
  refine ⟨fun d hd => ?_, fun k id hk htrans hok => ?_, fun htrans => ?_, rfl, rfl⟩
  · unfold submitWithRetry
    have h5 : (5 : Nat) = 4 + 1 := by norm_num
    rw [h5]
    simp [retryFrom, hd]
  · unfold submitWithRetry
    have hsplit : (5 : Nat) = k + (5 - k) := by omega
    rw [hsplit, retryFrom_transient_skip δ resps k (5 - k) 1 0 []
      (fun j hj1 hj2 => htrans j (by omega) (by omega))]
    have h2 : 5 - k = (5 - k - 1) + 1 := by omega
    have h1k : 1 + k = k + 1 := by omega
    rw [h2, h1k]
    simp [retryFrom, hok]
  · have := retryFrom_transient_skip δ resps 5 0 1 0 []
      (fun j hj1 hj2 => htrans j (by omega) (by omega))
    simpa [submitWithRetry, retryFrom] using this

/-- Witness for C9: the child loop sleeps 4 seconds (attempt 1 times delay
unit 4) and succeeds on attempt 2 with two calls made. -/
theorem submission_retry_witness :
    carousel_child_submit respsTransThenOk = (.success "cid", 2, [4]) := by
  have h := (submission_retry_spec 4 respsTransThenOk).2.1 1 "cid" (by omega)
    (fun j hj1 hj2 => ⟨"rate limited", by
      have hj : j = 1 := by omega
      subst hj
      decide⟩)
    (by decide)
  simpa [carousel_child_submit] using h

/-! ## Carousel normalization lemmas, C4 and C10 -/

theorem normalizeCards_isOk (link_url : String) :
    ∀ (cards : List RawCard) (i : Nat), (∀ c ∈ cards, getStr c.image_hash ≠ "") →
      ∃ l, normalizeCards link_url i cards = .ok l := by
  intro cards
  induction cards with
  | nil => exact fun i _ => ⟨[], rfl⟩
  | cons c rest ih =>
      intro i h
      have hc : getStr c.image_hash ≠ "" := h c (List.mem_cons_self c rest)
      obtain ⟨l, hl⟩ := ih (i + 1) (fun x hx => h x (List.mem_cons_of_mem c hx))
      refine ⟨{ name := c.name.getD ("Card " ++ toString i),
                link := if getStr c.link = "" then link_url else getStr c.link,
                image_hash := getStr c.image_hash,
                video_id := if getStr c.video_id = "" then none
                  else some (getStr c.video_id) } :: l, ?_⟩
      simp [normalizeCards, hc, hl]

theorem normalizeCards_length (link_url : String) :
    ∀ (cards : List RawCard) (i : Nat) (l : List NCard),
      normalizeCards link_url i cards = .ok l → l.length = cards.length := by
  intro cards
  induction cards with
  | nil =>
      intro i l h
      simp only [normalizeCards] at h
      cases h
      rfl
  | cons c rest ih =>
      intro i l h
      simp only [normalizeCards] at h
      by_cases hc : getStr c.image_hash = ""
      · rw [if_pos hc] at h; cases h
      · rw [if_neg hc] at h
        cases hrec : normalizeCards link_url (i + 1) rest with
        | error e => rw [hrec] at h; cases h
        | ok tl =>
            rw [hrec] at h
            cases h
            simp [ih (i + 1) tl hrec]

/-- C4 (amended): in `_normalize_carousel_attachments` a 1-card list raises
the too-few-cards `ValidationError`, an 11-card list the too-many-cards
one, and every list of 2..10 cards each carrying an image hash passes
validation and yields a normalized payload. -/
theorem carousel_cardinality_validation (cards : List RawCard) (link_url : String) :
    (cards.length = 1 → normalize_carousel_attachments cards link_url = .error .tooFewCards) ∧
    (cards.length = 11 → normalize_carousel_attachments cards link_url = .error .tooManyCards) ∧
    (2 ≤ cards.length → cards.length ≤ 10 →
      (∀ c ∈ cards, getStr c.image_hash ≠ "") →
      ∃ cover ncs, normalize_carousel_attachments cards link_url = .ok (cover, ncs)) := by
  refine ⟨fun h1 => ?_, fun h11 => ?_, fun h2 h10 hall => ?_⟩
  · unfold normalize_carousel_attachments
    rw [if_pos (by omega)]
  · unfold normalize_carousel_attachments
    rw [if_neg (by omega), if_pos (by omega)]
  · unfold normalize_carousel_attachments
    rw [if_neg (by omega), if_neg (by omega)]
    obtain ⟨l, hl⟩ := normalizeCards_isOk link_url cards 1 hall
    have hlen := normalizeCards_length link_url cards 1 l hl
    rw [hl]
    cases l with
    | nil => simp at hlen; omega
    | cons x tl => exact ⟨x.image_hash, x :: tl, rfl⟩


/-- C4, counterexample: `create_paid_fb_homogeneous_carousel_ad` performs
no cardinality validation: a 1-card list raises nothing and the builder
proceeds to submit both the creative and the ad (two network calls). -/
theorem fb_homogeneous_accepts_one_card_cex :
    (create_paid_fb_homogeneous_carousel_ad netOkFb "pg" "ad" "txt" "lnk"
        oneGoodCard "as1" "ACTIVE").1.length = 2 ∧
    (create_paid_fb_homogeneous_carousel_ad netOkFb "pg" "ad" "txt" "lnk"
        oneGoodCard "as1" "ACTIVE").2 = .ok "rid" := by
  constructor <;> decide

/-- Witness for C4 (amended): the 3-card all-hash list passes validation. -/
theorem carousel_cardinality_witness :
    ∃ cover ncs, normalize_carousel_attachments threeGoodCards "lnk" = .ok (cover, ncs) :=
  (carousel_cardinality_validation threeGoodCards "lnk").2.2 (by decide) (by decide)
    (by decide)

/-- C10: whenever `_normalize_carousel_attachments` computes a cover hash,
it is the first card's (stripped) image hash. -/
theorem carousel_cover_first_hash (c : RawCard) (rest : List RawCard)
    (link_url cover : String) (ncs : List NCard)
    (h : normalize_carousel_attachments (c :: rest) link_url = .ok (cover, ncs)) :
    cover = getStr c.image_hash := by
  unfold normalize_carousel_attachments at h
  by_cases h2 : (c :: rest).length < 2
  · rw [if_pos h2] at h; cases h
  · rw [if_neg h2] at h
    by_cases h10 : (c :: rest).length > 10
    · rw [if_pos h10] at h; cases h
    · rw [if_neg h10] at h
      by_cases hc : getStr c.image_hash = ""
      · have hbad : normalizeCards link_url 1 (c :: rest) = .error (.missingImageHash 1) := by
          simp [normalizeCards, hc]
        rw [hbad] at h; cases h
      · cases hrec : normalizeCards link_url (1 + 1) rest with
        | error e =>
            have hbad : normalizeCards link_url 1 (c :: rest) = .error e := by
              simp [normalizeCards, hc, hrec]
            rw [hbad] at h; cases h
        | ok tl =>
            have hceq : normalizeCards link_url 1 (c :: rest)
                = .ok ({ name := c.name.getD ("Card " ++ toString 1),
                         link := if getStr c.link = "" then link_url else getStr c.link,
                         image_hash := getStr c.image_hash,
                         video_id := if getStr c.video_id = ""
                           then none else some (getStr c.video_id) } :: tl) := by
              simp [normalizeCards, hc, hrec]
            rw [hceq] at h
            simp only [Except.ok.injEq, Prod.mk.injEq] at h
            exact h.1.symm

/-! ## Mixed carousel validation and C5 -/

theorem fbCleanMixed_err_at (link_url : String) :
    ∀ (cards : List RawCard) (i k : Nat) (c : RawCard),
      cards.get? k = some c →
      c.video_id.getD "" ≠ "" → c.image_hash.getD "" = "" →
      (∀ j cj, j < k → cards.get? j = some cj → cj.image_hash.getD "" ≠ "") →
      fbCleanMixed link_url i cards = .error (.missingThumbnail (i + k)) := by
  intro cards
  induction cards with
  | nil => intro i k c hk; simp at hk
  | cons a rest ih =>
      intro i k c hk hv hh hpre
      cases k with
      | zero =>
          obtain rfl : a = c := by simpa using hk
          simpa using (by simp [fbCleanMixed, hv, hh] :
            fbCleanMixed link_url i (a :: rest) = .error (.missingThumbnail i))
      | succ kp =>
          have ha : a.image_hash.getD "" ≠ "" := hpre 0 a (by omega) rfl
          have hrec := ih (i + 1) kp c (by simpa using hk) hv hh
            (fun j cj hj hcj => hpre (j + 1) cj (by omega) (by simpa using hcj))
          rw [show i + (kp + 1) = i + 1 + kp by omega]
          simp [fbCleanMixed, ha, hrec]

theorem fbCleanMixed_some_err (link_url : String) :
    ∀ (cards : List RawCard) (i : Nat),
      (∃ c ∈ cards, c.video_id.getD "" ≠ "" ∧ c.image_hash.getD "" = "") →
      ∃ e, fbCleanMixed link_url i cards = .error e := by
  intro cards
  induction cards with
  | nil => intro i h; simp at h
  | cons a rest ih =>
      intro i h
      by_cases hvh : a.video_id.getD "" ≠ "" ∧ a.image_hash.getD "" = ""
      · exact ⟨.missingThumbnail i, by simp [fbCleanMixed, hvh.1, hvh.2]⟩
      · by_cases hmb : a.image_hash.getD "" = "" ∧ a.video_id.getD "" = ""
        · exact ⟨.missingBoth i, by simp [fbCleanMixed, hvh, hmb.1, hmb.2]⟩
        · obtain ⟨c, hc, hcv⟩ := h
          have hcrest : c ∈ rest := by
            rcases List.mem_cons.mp hc with rfl | hmem
            · exact absurd hcv hvh
            · exact hmem
          obtain ⟨e, he⟩ := ih (i + 1) ⟨c, hcrest, hcv⟩
          exact ⟨e, by simp [fbCleanMixed, hvh, hmb, he]⟩

/-- C5 (amended): a mixed-carousel card list containing a card with a
video id and no image hash makes `create_paid_fb_mixed_carousel_ad` fail
during validation, before any network call (empty request trace); the
raised error is specifically the missing-thumbnail one whenever every
card before the offending card carries an image hash. -/
theorem fb_mixed_missing_thumbnail (net : FbReq → NetResp)
    (page_id ad_name primary_text link_url adset_id status : String)
    (cards : List RawCard) :
    (∀ k c, cards.get? k = some c →
      c.video_id.getD "" ≠ "" → c.image_hash.getD "" = "" →
      (∀ j cj, j < k → cards.get? j = some cj → cj.image_hash.getD "" ≠ "") →
      create_paid_fb_mixed_carousel_ad net page_id ad_name primary_text link_url
          cards adset_id status
        = ([], .error (.validation (.missingThumbnail (k + 1))))) ∧
    ((∃ c ∈ cards, c.video_id.getD "" ≠ "" ∧ c.image_hash.getD "" = "") →
      (create_paid_fb_mixed_carousel_ad net page_id ad_name primary_text link_url
          cards adset_id status).1 = [] ∧
      ∃ e, (create_paid_fb_mixed_carousel_ad net page_id ad_name primary_text link_url
          cards adset_id status).2 = .error (.validation e)) := by
  constructor
  · intro k c hk hv hh hpre
    have herr := fbCleanMixed_err_at link_url cards 1 k c hk hv hh hpre
    rw [show k + 1 = 1 + k by omega]
    simp [create_paid_fb_mixed_carousel_ad, herr]
  · intro hex
    obtain ⟨e, he⟩ := fbCleanMixed_some_err link_url cards 1 hex
    refine ⟨?_, e, ?_⟩ <;> simp [create_paid_fb_mixed_carousel_ad, he]

/-- C5, counterexample to the claim as stated: this list contains a card
with a video id and no image hash (position 2), yet the builder raises the
missing-both error for card 1, not MissingThumbnail — still with zero
network calls. -/
theorem fb_mixed_earlier_invalid_card_cex :
    create_paid_fb_mixed_carousel_ad netOkFb "pg" "ad" "txt" "lnk"
        mixedBadFirstCards "as1" "ACTIVE"
      = ([], .error (.validation (.missingBoth 1))) ∧
    CarErr.missingBoth 1 ≠ CarErr.missingThumbnail 2 := by
  constructor <;> decide

/-- Witness for C5 (amended): with every earlier card valid, the offending
video card (position 2) raises MissingThumbnail with an empty request
trace. -/
theorem fb_mixed_missing_thumbnail_witness :
    create_paid_fb_mixed_carousel_ad netOkFb "pg" "ad" "txt" "lnk"
        vidNoThumbCards "as1" "ACTIVE"
      = ([], .error (.validation (.missingThumbnail 2))) :=
  (fb_mixed_missing_thumbnail netOkFb "pg" "ad" "txt" "lnk" "as1" "ACTIVE"
      vidNoThumbCards).1 1 { video_id := some "v1" } (by decide) (by decide) (by decide)
    (fun j cj hj hcj => by
      have hj0 : j = 0 := by omega
      subst hj0
      have hcj1 : cj = { image_hash := some "h1" } := by
        have h0 : vidNoThumbCards.get? 0
            = some { name := none, link := none, image_hash := some "h1",
                     video_id := none } := by decide
        rw [h0] at hcj
        exact (Option.some.injEq _ _ ▸ hcj).symm
      subst hcj1
      decide)

/-! ## Mutable ad-set frame property, C7 -/

/-- C7: the pipeline's post-creation writes to the `_MutableAdSet` fields
(budget, title, link) issue no network request — in particular no update
of the already-created remote ad set — and leave the account-discovery and
campaign-creation request bodies unchanged, while the later-stage creative
payload of the same run is built from the newly written values. -/
theorem mutate_adset_frame (s : RunState) (b : Nat)
    (t l status page_id primary_text image_hash : String) :
    (mutate_adset s b t l).2 = [] ∧
    campaign_request_body (mutate_adset s b t l).1 status
      = campaign_request_body s status ∧
    discovery_request_fields (mutate_adset s b t l).1 = discovery_request_fields s ∧
    image_creative_link_data (mutate_adset s b t l).1 page_id primary_text image_hash
      = [("page_id", page_id), ("message", primary_text), ("link", l),
         ("image_hash", image_hash), ("name", t)] :=
  ⟨rfl, rfl, rfl, rfl⟩

/-! ## Ordinal addressing, C8 -/


/-- C8, counterexample: ordinal -1 was never recorded, yet
`AdsStairway.create_campaign_by_index` passes its `index >= len` guard,
aliases the last recorded campaign via Python negative indexing, and
issues the network submission instead of failing with NotFound. -/
theorem negative_ordinal_aliases_cex :
    (ads_create_campaign_by_index oneCampaign (-1) "PAUSED" netOkIg).1
      = [{ ad_account_id := "act_1", name := "camp",
           objective := "OUTCOME_AWARENESS", status := "PAUSED" }] ∧
    (ads_create_campaign_by_index oneCampaign (-1) "PAUSED" netOkIg).2
      = .ok { campaign_id := "cmp_1", ad_account_id := "act_1",
              name := "camp", objective := "OUTCOME_AWARENESS" } := by
  constructor <;> decide

/-- C8 (amended): a stage ordinal at or above the number of recorded
entries fails immediately with the invalid-index error and no network
call; a negative ordinal below the aliasing range raises `IndexError`,
again with no network call; and in the dict-keyed FB pipeline any
unrecorded ordinal (negative included) fails immediately with no network
call.  No branch retries. -/
theorem unrecorded_ordinal_fails (campaigns : List Campaign)
    (m : List (Int × CampaignRef)) (index : Int) (status : String)
    (net1 : IgCampaignReq → NetResp) (net2 : FbAdSetReq → NetResp) :
    ((campaigns.length : Int) ≤ index →
      ads_create_campaign_by_index campaigns index status net1
        = ([], .error .invalidIndex)) ∧
    (index < -(campaigns.length : Int) →
      ads_create_campaign_by_index campaigns index status net1
        = ([], .error .indexError)) ∧
    (lookupIdx m index = none →
      fb_create_adset m index status net2 = ([], .error .invalidIndex)) := by
  refine ⟨fun h => ?_, fun h => ?_, fun h => ?_⟩
  · unfold ads_create_campaign_by_index
    rw [if_pos h]
  · unfold ads_create_campaign_by_index
    rw [if_neg (by omega)]
    have hnone : pyListGet campaigns index = none := by
      unfold pyListGet
      rw [if_neg (by omega), if_neg (by omega)]
    rw [hnone]
  · unfold fb_create_adset
    rw [h]

/-- Witness for C8 (amended): ordinal 5 with one recorded campaign fails
with the invalid-index error and an empty request trace. -/
theorem unrecorded_ordinal_fails_witness :
    ads_create_campaign_by_index oneCampaign 5 "PAUSED" netOkIg
      = ([], .error .invalidIndex) :=
  (unrecorded_ordinal_fails oneCampaign [] 5 "PAUSED" netOkIg
    (fun _ => .ok "as_1")).1 (by decide)

/-- Witness for C10: on the concrete input with hashes h1, h2, h3 the
computed cover is "h1", the first card's image hash. -/
theorem carousel_cover_first_hash_witness :
    ("h1" : String) = getStr (some "h1") ∧
    normalize_carousel_attachments threeGoodCards "lnk"
      = .ok ("h1",
        [{ name := "Card 1", link := "lnk", image_hash := "h1", video_id := none },
         { name := "Card 2", link := "lnk", image_hash := "h2", video_id := none },
         { name := "Card 3", link := "lnk", image_hash := "h3", video_id := none }]) :=
  ⟨carousel_cover_first_hash { image_hash := some "h1" }
      [{ image_hash := some "h2" }, { image_hash := some "h3" }] "lnk" "h1"
      [{ name := "Card 1", link := "lnk", image_hash := "h1", video_id := none },
       { name := "Card 2", link := "lnk", image_hash := "h2", video_id := none },
       { name := "Card 3", link := "lnk", image_hash := "h3", video_id := none }]
      (by decide),
   by decide⟩
